import Mathlib

/-!
Shallow embedding of the payment-intent persistence core of the router:
the changeset model (`crates/router/src/types/storage/payment_intent.rs`),
the kv-store backend of the payment-intent store
(`crates/router/src/db/payment_intent.rs`), the access-token coordinator
(`crates/router/src/services/refresh_token.rs`), and the incoming-webhook
decoding pipeline (`crates/router/src/types/api/webhooks.rs`).

Machine timestamps (`time::PrimitiveDateTime`, produced by `date_time::now`)
are embedded as `Nat` clock values passed explicitly; opaque JSON payloads
(`serde_json::Value`) are embedded as a small inductive treated opaquely.
-/

namespace Hyperswitch

/-- Intent status enumeration (`enums::IntentStatus`); the code under
verification only distinguishes `Succeeded` from everything else. -/
inductive IntentStatus
  | RequiresPaymentMethod
  | RequiresConfirmation
  | RequiresCustomerAction
  | Processing
  | RequiresCapture
  | Cancelled
  | Succeeded
  | Failed
  deriving DecidableEq, Repr

/-- Currency enumeration (`enums::Currency`), treated opaquely by the core. -/
inductive Currency
  | USD
  | EUR
  | GBP
  | INR
  deriving DecidableEq, Repr

/-- Future-usage enumeration (`enums::FutureUsage`), treated opaquely. -/
inductive FutureUsage
  | OnSession
  | OffSession
  deriving DecidableEq, Repr

/-- Stand-in for `serde_json::Value` metadata blobs; the core never inspects
them, so a small inductive with decidable equality suffices. -/
inductive JsonValue
  | null
  | bool (b : Bool)
  | num (n : Int)
  | str (s : String)
  deriving DecidableEq, Repr

/-- Timestamps (`time::PrimitiveDateTime`) as abstract clock values. -/
abbrev DateTime := Nat

/-- The `PaymentIntent` entity (storage row). -/
structure PaymentIntent where
  id : Int
  payment_id : String
  merchant_id : String
  status : IntentStatus
  amount : Int
  currency : Option Currency
  amount_captured : Option Int
  customer_id : Option String
  description : Option String
  return_url : Option String
  metadata : Option JsonValue
  connector_id : Option String
  shipping_address_id : Option String
  billing_address_id : Option String
  statement_descriptor_name : Option String
  statement_descriptor_suffix : Option String
  created_at : DateTime
  modified_at : DateTime
  last_synced : Option DateTime
  setup_future_usage : Option FutureUsage
  off_session : Option Bool
  client_secret : Option String
  deriving DecidableEq, Repr

/-- The `PaymentIntentNew` insertion projection. -/
structure PaymentIntentNew where
  payment_id : String
  merchant_id : String
  status : IntentStatus
  amount : Int
  currency : Option Currency
  amount_captured : Option Int
  customer_id : Option String
  description : Option String
  return_url : Option String
  metadata : Option JsonValue
  connector_id : Option String
  shipping_address_id : Option String
  billing_address_id : Option String
  statement_descriptor_name : Option String
  statement_descriptor_suffix : Option String
  created_at : Option DateTime
  modified_at : Option DateTime
  last_synced : Option DateTime
  client_secret : Option String
  setup_future_usage : Option FutureUsage
  off_session : Option Bool
  deriving DecidableEq, Repr

/-- The closed set of named update intents (`PaymentIntentUpdate`). -/
inductive PaymentIntentUpdate
  | ResponseUpdate (status : IntentStatus) (amount_captured : Option Int)
      (return_url : Option String)
  | MetadataUpdate (metadata : JsonValue)
  | ReturnUrlUpdate (return_url : Option String) (status : Option IntentStatus)
      (customer_id : Option String) (shipping_address_id : Option String)
      (billing_address_id : Option String)
  | MerchantStatusUpdate (status : IntentStatus)
      (shipping_address_id : Option String) (billing_address_id : Option String)
  | PGStatusUpdate (status : IntentStatus)
  | Update (amount : Int) (currency : Currency) (status : IntentStatus)
      (customer_id : Option String) (shipping_address_id : Option String)
      (billing_address_id : Option String)
  deriving DecidableEq, Repr

/-- The internal partial-update record (`PaymentIntentUpdateInternal`);
`Default` in Rust gives all-`None` fields. -/
structure PaymentIntentUpdateInternal where
  amount : Option Int := none
  currency : Option Currency := none
  status : Option IntentStatus := none
  amount_captured : Option Int := none
  customer_id : Option String := none
  return_url : Option String := none
  setup_future_usage : Option FutureUsage := none
  off_session : Option Bool := none
  metadata : Option JsonValue := none
  client_secret : Option (Option String) := none
  billing_address_id : Option String := none
  shipping_address_id : Option String := none
  modified_at : Option DateTime := none
  deriving DecidableEq, Repr

/-- The helper `make_client_secret_null_if_success`: when the update's status
is `Some(Succeeded)` it forces the internal record's `client_secret` to
`Some(None)` (an explicit clear); otherwise it leaves it unspecified. -/
def make_client_secret_null_if_success (status : Option IntentStatus) :
    Option (Option String) :=
  if status = some IntentStatus.Succeeded then some none else none

/-- The `From<PaymentIntentUpdate> for PaymentIntentUpdateInternal`
conversion; `now` embeds `date_time::now()`. -/
def PaymentIntentUpdate.toInternal (u : PaymentIntentUpdate) (now : DateTime) :
    PaymentIntentUpdateInternal :=
  match u with
  | .Update amount currency status customer_id shipping_address_id
      billing_address_id =>
    { amount := some amount
      currency := some currency
      status := some status
      customer_id := customer_id
      client_secret := make_client_secret_null_if_success (some status)
      shipping_address_id := shipping_address_id
      billing_address_id := billing_address_id
      modified_at := some now }
  | .MetadataUpdate metadata =>
    { metadata := some metadata
      modified_at := some now }
  | .ReturnUrlUpdate return_url status customer_id shipping_address_id
      billing_address_id =>
    { return_url := return_url
      status := status
      client_secret := make_client_secret_null_if_success status
      customer_id := customer_id
      shipping_address_id := shipping_address_id
      billing_address_id := billing_address_id
      modified_at := some now }
  | .PGStatusUpdate status =>
    { status := some status
      modified_at := some now }
  | .MerchantStatusUpdate status shipping_address_id billing_address_id =>
    { status := some status
      client_secret := make_client_secret_null_if_success (some status)
      shipping_address_id := shipping_address_id
      billing_address_id := billing_address_id
      modified_at := some now }
  | .ResponseUpdate status amount_captured return_url =>
    { status := some status
      amount_captured := amount_captured
      return_url := return_url
      client_secret := make_client_secret_null_if_success (some status)
      modified_at := some now }

/-- The pure merge `PaymentIntentUpdate::apply_changeset`: new value if
present, else keep old, except `client_secret` (whose internal value is an
`Option (Option _)` merged with `unwrap_or`, so an explicit clear wins) and
`modified_at` (always set to now); fields not named in the internal record
come from `..source`. -/
def PaymentIntentUpdate.apply_changeset (u : PaymentIntentUpdate)
    (now : DateTime) (source : PaymentIntent) : PaymentIntent :=
  let internal_update := u.toInternal now
  { source with
    amount := internal_update.amount.getD source.amount
    currency := internal_update.currency.or source.currency
    status := internal_update.status.getD source.status
    amount_captured := internal_update.amount_captured.or source.amount_captured
    customer_id := internal_update.customer_id.or source.customer_id
    return_url := internal_update.return_url.or source.return_url
    setup_future_usage :=
      internal_update.setup_future_usage.or source.setup_future_usage
    off_session := internal_update.off_session.or source.off_session
    metadata := internal_update.metadata.or source.metadata
    client_secret := internal_update.client_secret.getD source.client_secret
    billing_address_id :=
      internal_update.billing_address_id.or source.billing_address_id
    shipping_address_id :=
      internal_update.shipping_address_id.or source.shipping_address_id
    modified_at := now }

/-- Characterization predicate: the update variants and statuses for which
the conversion arms pass `Some(Succeeded)` (or, for `ReturnUrlUpdate`, the
carried optional status equal to `Some(Succeeded)`) into
`make_client_secret_null_if_success`. `PGStatusUpdate` and `MetadataUpdate`
never consult the helper. -/
def PaymentIntentUpdate.carriesSucceeded : PaymentIntentUpdate → Bool
  | .ResponseUpdate status _ _ => status = IntentStatus.Succeeded
  | .MetadataUpdate _ => false
  | .ReturnUrlUpdate _ status _ _ _ => status = some IntentStatus.Succeeded
  | .MerchantStatusUpdate status _ _ => status = IntentStatus.Succeeded
  | .PGStatusUpdate _ => false
  | .Update _ _ status _ _ _ => status = IntentStatus.Succeeded

/-- A sample source intent used in concrete counterexamples. -/
def sampleIntent : PaymentIntent :=
  { id := 1
    payment_id := "pay_1"
    merchant_id := "m_1"
    status := IntentStatus.Processing
    amount := 100
    currency := some Currency.USD
    amount_captured := none
    customer_id := some "cust_1"
    description := some "desc"
    return_url := some "https://example.com/ret"
    metadata := some (JsonValue.str "meta")
    connector_id := some "stripe"
    shipping_address_id := some "ship_1"
    billing_address_id := some "bill_1"
    statement_descriptor_name := some "name"
    statement_descriptor_suffix := some "sfx"
    created_at := 10
    modified_at := 10
    last_synced := some 11
    setup_future_usage := some FutureUsage.OnSession
    off_session := some false
    client_secret := some "secret_1" }

/-- Storage-layer error kinds (`errors::StorageError`) used by the
payment-intent store. -/
inductive StorageError
  | DuplicateValue (msg : String)
  | ValueNotFound (msg : String)
  | KVError
  deriving DecidableEq, Repr

/-- Redis client error kinds (`fred::RedisErrorKind`): the code only
distinguishes `NotFound` from everything else. -/
inductive RedisErrorKind
  | NotFound
  | Timeout
  | Protocol
  | Unknown
  deriving DecidableEq, Repr

/-- A Redis hash store: an association list from (key, field) to the stored
serialized value. -/
def RedisStore (α : Type) := List ((String × String) × α)

/-- Look up a hash field in the store. -/
def RedisStore.get {α : Type} (st : RedisStore α) (key fld : String) :
    Option α :=
  (st.find? (fun e => e.1.1 = key ∧ e.1.2 = fld)).map Prod.snd

/-- HSETNX: set the hash field only if absent; returns 1 and the extended
store when the field was newly created, 0 and the unchanged store when it
already existed. -/
def RedisStore.hsetnx {α : Type} (st : RedisStore α) (key fld : String)
    (v : α) : Nat × RedisStore α :=
  match st.get key fld with
  | some _ => (0, st)
  | none => (1, ((key, fld), v) :: st)

/-- HGET as the fred client surfaces it when converting to `String`: a
missing field manifests as a `NotFound` error kind. -/
def RedisStore.hget {α : Type} (st : RedisStore α) (key fld : String) :
    Except RedisErrorKind α :=
  match st.get key fld with
  | some v => Except.ok v
  | none => Except.error RedisErrorKind.NotFound

/-- The entity built by the kv-store `insert_payment_intent` from the `New`
projection before writing: `id` is zero, `created_at` and `modified_at` both
default to `new.created_at.unwrap_or_else(now)`. -/
def createdIntent (new : PaymentIntentNew) (now : DateTime) : PaymentIntent :=
  { id := 0
    payment_id := new.payment_id
    merchant_id := new.merchant_id
    status := new.status
    amount := new.amount
    currency := new.currency
    amount_captured := new.amount_captured
    customer_id := new.customer_id
    description := new.description
    return_url := new.return_url
    metadata := new.metadata
    connector_id := new.connector_id
    shipping_address_id := new.shipping_address_id
    billing_address_id := new.billing_address_id
    statement_descriptor_name := new.statement_descriptor_name
    statement_descriptor_suffix := new.statement_descriptor_suffix
    created_at := new.created_at.getD now
    modified_at := new.created_at.getD now
    last_synced := new.last_synced
    setup_future_usage := new.setup_future_usage
    off_session := new.off_session
    client_secret := new.client_secret }

/-- How `insert_payment_intent` dispatches on the HSETNX response:
`Ok(0)` means the field already existed and yields `DuplicateValue`,
`Ok(1)` yields the created entity, any other `Ok(i)` yields `KVError`, and
any client error yields `KVError`. -/
def insertDispatch (resp : Except RedisErrorKind Nat) (created : PaymentIntent)
    (key : String) : Except StorageError PaymentIntent :=
  match resp with
  | Except.ok 0 =>
    Except.error (StorageError.DuplicateValue
      ("Payment Intent already exists for payment_id: " ++ key))
  | Except.ok 1 => Except.ok created
  | Except.ok _ => Except.error StorageError.KVError
  | Except.error _ => Except.error StorageError.KVError

/-- The kv-store `insert_payment_intent`: serializes the created entity with
`enc` (embedding `serde_json::to_string`) and performs HSETNX on key
`payment_id + "_" + merchant_id`, hash field `"pa"`. Returns the result
together with the resulting store state. -/
def insert_payment_intent {α : Type} (enc : PaymentIntent → α)
    (st : RedisStore α) (new : PaymentIntentNew) (now : DateTime) :
    Except StorageError PaymentIntent × RedisStore α :=
  let key := new.payment_id ++ "_" ++ new.merchant_id
  let created := createdIntent new now
  let r := st.hsetnx key "pa" (enc created)
  (insertDispatch (Except.ok r.1) created key, r.2)

/-- How `find_payment_intent_by_payment_id_merchant_id` dispatches on the
HGET response: a `NotFound` error kind maps to `ValueNotFound`, any other
client error to `KVError`; a retrieved value is deserialized with `dec`
(embedding `serde_json::from_str`), a deserialization failure mapping to
`KVError`. -/
def findDispatch {α : Type} (dec : α → Option PaymentIntent)
    (resp : Except RedisErrorKind α) (key : String) :
    Except StorageError PaymentIntent :=
  match resp with
  | Except.error RedisErrorKind.NotFound =>
    Except.error (StorageError.ValueNotFound
      ("Payment Intent does not exist for " ++ key))
  | Except.error _ => Except.error StorageError.KVError
  | Except.ok v =>
    match dec v with
    | some intent => Except.ok intent
    | none => Except.error StorageError.KVError

/-- The kv-store `find_payment_intent_by_payment_id_merchant_id`: HGET on key
`payment_id + "_" + merchant_id`, hash field `"pi"`. -/
def find_payment_intent_by_payment_id_merchant_id {α : Type}
    (dec : α → Option PaymentIntent) (st : RedisStore α)
    (payment_id merchant_id : String) : Except StorageError PaymentIntent :=
  let key := payment_id ++ "_" ++ merchant_id
  findDispatch dec (st.hget key "pi") key

/-- A sample `New` projection used in concrete inputs. -/
def sampleNew : PaymentIntentNew :=
  { payment_id := "pay_1"
    merchant_id := "m_1"
    status := IntentStatus.RequiresPaymentMethod
    amount := 100
    currency := some Currency.USD
    amount_captured := none
    customer_id := none
    description := none
    return_url := none
    metadata := none
    connector_id := none
    shipping_address_id := none
    billing_address_id := none
    statement_descriptor_name := none
    statement_descriptor_suffix := none
    created_at := none
    modified_at := none
    last_synced := none
    client_secret := some "secret_1"
    setup_future_usage := none
    off_session := none }

/-- Presence of the second argument survives an `Option.or` merge. -/
lemma isSome_or_of_isSome {α : Type} (a b : Option α) (h : b.isSome = true) :
    (a.or b).isSome = true := by
  cases a <;> simp [Option.or, h]

/-- Exact characterization of `client_secret` after `apply_changeset`: it is
cleared precisely when the variant passes a `Succeeded` status into
`make_client_secret_null_if_success`; otherwise the source's value is kept. -/
lemma apply_changeset_secret (u : PaymentIntentUpdate) (s : PaymentIntent)
    (now : DateTime) :
    (u.apply_changeset now s).client_secret =
      if u.carriesSucceeded then none else s.client_secret := by
  cases u with
  | ResponseUpdate st ac ru =>
    by_cases h : st = IntentStatus.Succeeded <;>
      simp [PaymentIntentUpdate.apply_changeset, PaymentIntentUpdate.toInternal,
        PaymentIntentUpdate.carriesSucceeded, make_client_secret_null_if_success, h]
  | MetadataUpdate m =>
    simp [PaymentIntentUpdate.apply_changeset, PaymentIntentUpdate.toInternal,
      PaymentIntentUpdate.carriesSucceeded]
  | ReturnUrlUpdate ru st cu sh bi =>
    by_cases h : st = some IntentStatus.Succeeded <;>
      simp [PaymentIntentUpdate.apply_changeset, PaymentIntentUpdate.toInternal,
        PaymentIntentUpdate.carriesSucceeded, make_client_secret_null_if_success, h]
  | MerchantStatusUpdate st sh bi =>
    by_cases h : st = IntentStatus.Succeeded <;>
      simp [PaymentIntentUpdate.apply_changeset, PaymentIntentUpdate.toInternal,
        PaymentIntentUpdate.carriesSucceeded, make_client_secret_null_if_success, h]
  | PGStatusUpdate st =>
    simp [PaymentIntentUpdate.apply_changeset, PaymentIntentUpdate.toInternal,
      PaymentIntentUpdate.carriesSucceeded]
  | Update am cu st c sh bi =>
    by_cases h : st = IntentStatus.Succeeded <;>
      simp [PaymentIntentUpdate.apply_changeset, PaymentIntentUpdate.toInternal,
        PaymentIntentUpdate.carriesSucceeded, make_client_secret_null_if_success, h]

/-- C1 counterexample: `PGStatusUpdate` with status `Succeeded` on a source
holding a client secret produces an entity whose status is the success
terminal state but whose `client_secret` is still present — the
`PGStatusUpdate` conversion arm never calls `make_client_secret_null_if_success`. -/
theorem pg_status_update_succeeded_keeps_client_secret :
    ((PaymentIntentUpdate.PGStatusUpdate IntentStatus.Succeeded).apply_changeset 20
        sampleIntent).status = IntentStatus.Succeeded ∧
    ((PaymentIntentUpdate.PGStatusUpdate IntentStatus.Succeeded).apply_changeset 20
        sampleIntent).client_secret = some "secret_1" ∧
    ((PaymentIntentUpdate.PGStatusUpdate IntentStatus.Succeeded).apply_changeset 20
        sampleIntent).client_secret ≠ none :=
  ⟨rfl, rfl, fun h => Option.noConfusion h⟩

/-- C1 (amended): `apply_changeset` clears `client_secret` exactly when the
update variant itself carries status `Succeeded` (`ResponseUpdate`,
`MerchantStatusUpdate`, `Update` with status `Succeeded`, or `ReturnUrlUpdate`
with status `Some Succeeded`); otherwise — in particular for `PGStatusUpdate`
and `MetadataUpdate`, and whenever a `Succeeded` status merely persists from
the source — the source's `client_secret` is kept. -/
theorem secret_nulling_characterization (u : PaymentIntentUpdate)
    (s : PaymentIntent) (now : DateTime) :
    (u.apply_changeset now s).client_secret =
      if u.carriesSucceeded then none else s.client_secret :=
  apply_changeset_secret u s now

/-- C5: `MetadataUpdate` sets `metadata` to the carried value and
`modified_at` to the update time, and leaves every other field of the source
unchanged. -/
theorem metadata_update_frame (s : PaymentIntent) (M : JsonValue)
    (now : DateTime) :
    (PaymentIntentUpdate.MetadataUpdate M).apply_changeset now s =
      { s with metadata := some M, modified_at := now } :=
  rfl

/-- C9: no update variant changes the identity, natural key, creation or
reconciliation timestamps, connector routing id, statement descriptors, or
description of the entity. -/
theorem apply_changeset_identity_frame (u : PaymentIntentUpdate)
    (s : PaymentIntent) (now : DateTime) :
    (u.apply_changeset now s).id = s.id ∧
    (u.apply_changeset now s).payment_id = s.payment_id ∧
    (u.apply_changeset now s).merchant_id = s.merchant_id ∧
    (u.apply_changeset now s).created_at = s.created_at ∧
    (u.apply_changeset now s).last_synced = s.last_synced ∧
    (u.apply_changeset now s).connector_id = s.connector_id ∧
    (u.apply_changeset now s).statement_descriptor_name =
      s.statement_descriptor_name ∧
    (u.apply_changeset now s).statement_descriptor_suffix =
      s.statement_descriptor_suffix ∧
    (u.apply_changeset now s).description = s.description :=
  ⟨rfl, rfl, rfl, rfl, rfl, rfl, rfl, rfl, rfl⟩

/-- C10: field presence is monotone under every update variant for the nine
`Option.or`-merged fields, and `client_secret` is the sole field that can go
from present to absent, which happens only when the variant carries the
`Succeeded` status (the success-status rule). -/
theorem apply_changeset_presence_monotone (u : PaymentIntentUpdate)
    (s : PaymentIntent) (now : DateTime) :
    (s.currency.isSome = true →
      (u.apply_changeset now s).currency.isSome = true) ∧
    (s.amount_captured.isSome = true →
      (u.apply_changeset now s).amount_captured.isSome = true) ∧
    (s.customer_id.isSome = true →
      (u.apply_changeset now s).customer_id.isSome = true) ∧
    (s.return_url.isSome = true →
      (u.apply_changeset now s).return_url.isSome = true) ∧
    (s.metadata.isSome = true →
      (u.apply_changeset now s).metadata.isSome = true) ∧
    (s.setup_future_usage.isSome = true →
      (u.apply_changeset now s).setup_future_usage.isSome = true) ∧
    (s.off_session.isSome = true →
      (u.apply_changeset now s).off_session.isSome = true) ∧
    (s.billing_address_id.isSome = true →
      (u.apply_changeset now s).billing_address_id.isSome = true) ∧
    (s.shipping_address_id.isSome = true →
      (u.apply_changeset now s).shipping_address_id.isSome = true) ∧
    (s.client_secret.isSome = true →
      (u.apply_changeset now s).client_secret = none →
      u.carriesSucceeded = true) := by
  refine ⟨fun h => isSome_or_of_isSome _ _ h, fun h => isSome_or_of_isSome _ _ h,
    fun h => isSome_or_of_isSome _ _ h, fun h => isSome_or_of_isSome _ _ h,
    fun h => isSome_or_of_isSome _ _ h, fun h => isSome_or_of_isSome _ _ h,
    fun h => isSome_or_of_isSome _ _ h, fun h => isSome_or_of_isSome _ _ h,
    fun h => isSome_or_of_isSome _ _ h, ?_⟩
  intro hs hnone
  rw [apply_changeset_secret] at hnone
  by_cases hc : u.carriesSucceeded
  · exact hc
  · rw [if_neg hc] at hnone
    rw [hnone] at hs
    exact absurd hs (by simp)

/-- Witness for the presence-monotonicity theorem at a concrete update and
source intent. -/
theorem apply_changeset_presence_monotone_witness :
    sampleIntent.currency.isSome = true ∧
    ((PaymentIntentUpdate.MetadataUpdate JsonValue.null).apply_changeset 20
        sampleIntent).currency.isSome = true :=
  ⟨by decide,
    (apply_changeset_presence_monotone
      (PaymentIntentUpdate.MetadataUpdate JsonValue.null) sampleIntent 20).1
      (by decide)⟩

/-- C2: the kv-store round-trip is broken by the hash-field mismatch —
`insert_payment_intent` succeeds (writing the serialized entity under field
`"pa"`) but the immediately following find on the same `payment_id` and
`merchant_id` reads field `"pi"` and returns `ValueNotFound` instead of the
inserted record, for any serialization codec. -/
theorem insert_then_find_round_trip_fails :
    (insert_payment_intent (α := PaymentIntent) id [] sampleNew 20).1 =
      Except.ok (createdIntent sampleNew 20) ∧
    find_payment_intent_by_payment_id_merchant_id (α := PaymentIntent) some
        (insert_payment_intent (α := PaymentIntent) id [] sampleNew 20).2
        "pay_1" "m_1" =
      Except.error (StorageError.ValueNotFound
        "Payment Intent does not exist for pay_1_m_1") :=
  ⟨rfl, rfl⟩

/-- C4: kv-store insert is a set-if-absent on key
`payment_id + "_" + merchant_id`: when the field is absent the write succeeds
and the created entity is returned; when it is already present the result is
`DuplicateValue` and the store is unchanged (no overwrite); an HSETNX
response other than 0 or 1, or any client error, yields `KVError`. -/
theorem insert_payment_intent_set_if_absent {α : Type}
    (enc : PaymentIntent → α) (st : RedisStore α) (new : PaymentIntentNew)
    (now : DateTime) :
    (RedisStore.get st (new.payment_id ++ "_" ++ new.merchant_id) "pa" = none →
      insert_payment_intent enc st new now =
        (Except.ok (createdIntent new now),
          ((new.payment_id ++ "_" ++ new.merchant_id, "pa"),
            enc (createdIntent new now)) :: st)) ∧
    (∀ v, RedisStore.get st (new.payment_id ++ "_" ++ new.merchant_id) "pa" =
        some v →
      insert_payment_intent enc st new now =
        (Except.error (StorageError.DuplicateValue
          ("Payment Intent already exists for payment_id: " ++
            (new.payment_id ++ "_" ++ new.merchant_id))), st)) ∧
    (∀ i, i ≠ 0 → i ≠ 1 →
      insertDispatch (Except.ok i) (createdIntent new now)
          (new.payment_id ++ "_" ++ new.merchant_id) =
        Except.error StorageError.KVError) ∧
    (∀ e, insertDispatch (Except.error e) (createdIntent new now)
        (new.payment_id ++ "_" ++ new.merchant_id) =
      Except.error StorageError.KVError) := by
  refine ⟨?_, ?_, ?_, ?_⟩
  · intro h
    simp [insert_payment_intent, RedisStore.hsetnx, h, insertDispatch]
  · intro v h
    simp [insert_payment_intent, RedisStore.hsetnx, h, insertDispatch]
  · intro i h0 h1
    cases i with
    | zero => exact absurd rfl h0
    | succ n =>
      cases n with
      | zero => exact absurd rfl h1
      | succ m => rfl
  · intro e
    rfl

/-- Witness for the set-if-absent theorem: inserting into an empty store
succeeds and extends the store. -/
theorem insert_payment_intent_set_if_absent_witness :
    insert_payment_intent (α := PaymentIntent) id [] sampleNew 20 =
      (Except.ok (createdIntent sampleNew 20),
        [(("pay_1_m_1", "pa"), createdIntent sampleNew 20)]) :=
  (insert_payment_intent_set_if_absent (α := PaymentIntent) id [] sampleNew
    20).1 rfl

/-- C6: kv-store find maps an absent record (a `NotFound` client response) to
`ValueNotFound` — by construction never `KVError` — and maps every other
client error kind to `KVError`. -/
theorem find_not_found_mapping {α : Type} (dec : α → Option PaymentIntent)
    (st : RedisStore α) (payment_id merchant_id : String) :
    (RedisStore.get st (payment_id ++ "_" ++ merchant_id) "pi" = none →
      find_payment_intent_by_payment_id_merchant_id dec st payment_id
          merchant_id =
        Except.error (StorageError.ValueNotFound
          ("Payment Intent does not exist for " ++
            (payment_id ++ "_" ++ merchant_id)))) ∧
    (∀ e, e ≠ RedisErrorKind.NotFound →
      findDispatch dec (Except.error e) (payment_id ++ "_" ++ merchant_id) =
        Except.error StorageError.KVError) := by
  constructor
  · intro h
    simp [find_payment_intent_by_payment_id_merchant_id, RedisStore.hget, h,
      findDispatch]
  · intro e he
    cases e with
    | NotFound => exact absurd rfl he
    | Timeout => rfl
    | Protocol => rfl
    | Unknown => rfl

/-- Witness for the not-found mapping at an empty store. -/
theorem find_not_found_mapping_witness :
    find_payment_intent_by_payment_id_merchant_id (α := PaymentIntent) some []
        "pay_1" "m_1" =
      Except.error (StorageError.ValueNotFound
        "Payment Intent does not exist for pay_1_m_1") :=
  (find_not_found_mapping (α := PaymentIntent) some [] "pay_1" "m_1").1 rfl

/-- Connector identifiers (`api_models::enums::Connector`); the capability
match names `Globalpay`, `Payu`, `Stripe` and falls through to `false` for
the rest. -/
inductive Connector
  | Globalpay
  | Payu
  | Stripe
  | Aci
  | Adyen
  | Checkout
  deriving DecidableEq, Repr

/-- Connector dispatch data (`api_types::ConnectorData`); only the
`connector_name` field is consulted by the capability flag. -/
structure ConnectorData where
  connector_name : Connector
  deriving DecidableEq, Repr

/-- The static per-connector capability flag
`connector_supports_access_token`. -/
def connector_supports_access_token (connector : ConnectorData) : Bool :=
  match connector.connector_name with
  | Connector.Globalpay => true
  | Connector.Payu => true
  | Connector.Stripe => false
  | _ => false

/-- Modelled from the spec: `types::AccessToken` (declared outside the given
sources) is an opaque bearer credential with an expiry window. -/
structure AccessToken where
  token : String
  expires : Int
  deriving DecidableEq, Repr

/-- Modelled from the spec: `types::ErrorResponse` (declared outside the
given sources) is a connector error payload; `ErrorResponse::default()` is
the empty response. -/
structure ErrorResponse where
  code : String := ""
  message : String := ""
  deriving DecidableEq, Repr

/-- The empty error response `ErrorResponse::default()`. -/
def ErrorResponse.default : ErrorResponse := {}

/-- Router-level error (`errors::ApiErrorResponse`); this path only produces
`InternalServerError`. -/
inductive ApiError
  | InternalServerError
  deriving DecidableEq, Repr

/-- Store-layer failure of the access-token cache, treated opaquely. -/
inductive StoreError
  | Failure (msg : String)
  deriving DecidableEq, Repr

/-- The environment of one `add_access_token` call: the outcomes the cache
and the connector would give if consulted. `refresh` embeds
`refresh_connector_auth`, whose own transport failure has already been
mapped to `InternalServerError`; its payload is the connector's
`Result<AccessToken, ErrorResponse>`. -/
structure TokenEnv where
  get_access_token : Except StoreError (Option AccessToken)
  refresh : Except ApiError (Except ErrorResponse AccessToken)
  set_access_token : Except StoreError Unit

/-- Side-effect counters of one `add_access_token` call: cache lookups,
connector refresh network calls, and cache write-backs performed. -/
structure TokenEffects where
  lookups : Nat
  refresh_calls : Nat
  write_backs : Nat
  deriving DecidableEq, Repr

/-- The coordinator `add_access_token`: if the connector does not support
bearer tokens, return the empty error response with `attempted = false` and
touch nothing; otherwise look up the cache (a lookup failure aborts with
`InternalServerError`), return a hit immediately, and on a miss refresh via
the connector, write a fresh token back best-effort (the write-back result
is bound to `_` and discarded) and return it. The returned pair carries the
Rust return value and the effect counters. -/
def add_access_token (connector : ConnectorData) (env : TokenEnv) :
    Except ApiError (Except ErrorResponse (Option AccessToken) × Bool) ×
      TokenEffects :=
  if connector_supports_access_token connector then
    match env.get_access_token with
    | Except.error _ =>
      (Except.error ApiError.InternalServerError,
        { lookups := 1, refresh_calls := 0, write_backs := 0 })
    | Except.ok (some access_token) =>
      (Except.ok (Except.ok (some access_token), true),
        { lookups := 1, refresh_calls := 0, write_backs := 0 })
    | Except.ok none =>
      match env.refresh with
      | Except.error _ =>
        (Except.error ApiError.InternalServerError,
          { lookups := 1, refresh_calls := 1, write_backs := 0 })
      | Except.ok (Except.error er) =>
        (Except.ok (Except.error er, true),
          { lookups := 1, refresh_calls := 1, write_backs := 0 })
      | Except.ok (Except.ok access_token) =>
        let _discarded := env.set_access_token
        (Except.ok (Except.ok (some access_token), true),
          { lookups := 1, refresh_calls := 1, write_backs := 1 })
  else
    (Except.ok (Except.error ErrorResponse.default, false),
      { lookups := 0, refresh_calls := 0, write_backs := 0 })

/-- C7: when bearer tokens are supported, the cache misses, and the connector
refresh succeeds, `add_access_token` returns `Ok` with the fresh token even
though the cache write-back failed — the discarded write-back result cannot
change the returned value. -/
theorem add_access_token_write_back_nonfatal (connector : ConnectorData)
    (env : TokenEnv) (tok : AccessToken) (werr : StoreError)
    (hs : connector_supports_access_token connector = true)
    (hmiss : env.get_access_token = Except.ok none)
    (href : env.refresh = Except.ok (Except.ok tok))
    (_hwb : env.set_access_token = Except.error werr) :
    add_access_token connector env =
      (Except.ok (Except.ok (some tok), true),
        { lookups := 1, refresh_calls := 1, write_backs := 1 }) := by
  simp [add_access_token, hs, hmiss, href]

/-- Witness: a Globalpay call with a cold cache, a successful refresh, and a
failing write-back still returns the fresh token. -/
theorem add_access_token_write_back_nonfatal_witness :
    add_access_token { connector_name := Connector.Globalpay }
        { get_access_token := Except.ok none
          refresh := Except.ok (Except.ok { token := "t1", expires := 60 })
          set_access_token := Except.error (StoreError.Failure "redis down") } =
      (Except.ok (Except.ok (some { token := "t1", expires := 60 }), true),
        { lookups := 1, refresh_calls := 1, write_backs := 1 }) :=
  add_access_token_write_back_nonfatal
    { connector_name := Connector.Globalpay }
    { get_access_token := Except.ok none
      refresh := Except.ok (Except.ok { token := "t1", expires := 60 })
      set_access_token := Except.error (StoreError.Failure "redis down") }
    { token := "t1", expires := 60 } (StoreError.Failure "redis down")
    rfl rfl rfl rfl

/-- C8: for a connector whose authentication scheme does not use bearer
tokens, `add_access_token` returns the empty error response with
`attempted = false` and performs no cache lookup, no refresh network call,
and no write-back, whatever the environment would have answered. -/
theorem add_access_token_unsupported_short_circuit (connector : ConnectorData)
    (env : TokenEnv)
    (hs : connector_supports_access_token connector = false) :
    add_access_token connector env =
      (Except.ok (Except.error ErrorResponse.default, false),
        { lookups := 0, refresh_calls := 0, write_backs := 0 }) := by
  simp [add_access_token, hs]

/-- Witness: Stripe does not support access tokens, so the call
short-circuits with no effects. -/
theorem add_access_token_unsupported_short_circuit_witness :
    add_access_token { connector_name := Connector.Stripe }
        { get_access_token := Except.ok none
          refresh := Except.ok (Except.ok { token := "t1", expires := 60 })
          set_access_token := Except.ok () } =
      (Except.ok (Except.error ErrorResponse.default, false),
        { lookups := 0, refresh_calls := 0, write_backs := 0 }) :=
  add_access_token_unsupported_short_circuit
    { connector_name := Connector.Stripe }
    { get_access_token := Except.ok none
      refresh := Except.ok (Except.ok { token := "t1", expires := 60 })
      set_access_token := Except.ok () }
    rfl

/-- Connector error kinds (`errors::ConnectorError`) relevant to the webhook
pipeline, plus representative other kinds an implementation may raise. -/
inductive ConnectorError
  | WebhookBodyDecodingFailed
  | WebhookSourceVerificationFailed
  | ParsingFailed
  | RequestEncodingFailed
  deriving DecidableEq, Repr

/-- Inbound HTTP headers (`actix_web::http::header::HeaderMap`), as a
key/value list; the default pipeline steps never inspect them. -/
abbrev Headers := List (String × String)

/-- Raw byte payloads, as lists of byte values. -/
abbrev Bytes := List Nat

/-- A boxed decoding algorithm (`crypto::DecodeMessage`): decodes a message
with a secret. -/
structure DecodeAlgorithm where
  decode_message : Bytes → Bytes → Except ConnectorError Bytes

/-- The `error_stack` `change_context` on a fallible step: a success passes
through, a failure's context is replaced by the given error. -/
def change_context {α : Type} (r : Except ConnectorError α)
    (err : ConnectorError) : Except ConnectorError α :=
  match r with
  | Except.ok a => Except.ok a
  | Except.error _ => Except.error err

/-- The overridable steps of one connector's `IncomingWebhook` body-decoding
pipeline: algorithm selection, message extraction, and merchant-secret
retrieval. -/
structure IncomingWebhookImpl where
  get_webhook_body_decoding_algorithm :
    Headers → Bytes → Except ConnectorError DecodeAlgorithm
  get_webhook_body_decoding_message :
    Headers → Bytes → Except ConnectorError Bytes
  get_webhook_body_decoding_merchant_secret :
    String → Except ConnectorError Bytes

/-- The provided method `decode_webhook_body`: select the algorithm (its
failure propagates with `?` and no `change_context`), then extract the
message, retrieve the merchant secret, and decode, each of the latter three
failures being mapped to `WebhookBodyDecodingFailed`. -/
def decode_webhook_body (impl : IncomingWebhookImpl) (headers : Headers)
    (body : Bytes) (merchant_id : String) : Except ConnectorError Bytes :=
  match impl.get_webhook_body_decoding_algorithm headers body with
  | Except.error e => Except.error e
  | Except.ok algorithm =>
    match change_context (impl.get_webhook_body_decoding_message headers body)
        ConnectorError.WebhookBodyDecodingFailed with
    | Except.error e => Except.error e
    | Except.ok message =>
      match change_context
          (impl.get_webhook_body_decoding_merchant_secret merchant_id)
          ConnectorError.WebhookBodyDecodingFailed with
      | Except.error e => Except.error e
      | Except.ok secret =>
        change_context (algorithm.decode_message secret message)
          ConnectorError.WebhookBodyDecodingFailed

/-- A connector implementation whose algorithm-selection step fails with a
kind other than `WebhookBodyDecodingFailed`. -/
def algFailImpl : IncomingWebhookImpl :=
  { get_webhook_body_decoding_algorithm := fun _ _ =>
      Except.error ConnectorError.ParsingFailed
    get_webhook_body_decoding_message := fun _ body => Except.ok body
    get_webhook_body_decoding_merchant_secret := fun _ => Except.ok [] }

/-- A connector implementation whose message-extraction step fails. -/
def msgFailImpl : IncomingWebhookImpl :=
  { get_webhook_body_decoding_algorithm := fun _ _ =>
      Except.ok { decode_message := fun _ message => Except.ok message }
    get_webhook_body_decoding_message := fun _ _ =>
      Except.error ConnectorError.ParsingFailed
    get_webhook_body_decoding_merchant_secret := fun _ => Except.ok [] }

/-- C3 counterexample: a failure of the first step (select decoding
algorithm) is propagated with `?` and no `change_context`, so
`decode_webhook_body` surfaces the step's own error kind (`ParsingFailed`
here), not `WebhookBodyDecodingFailed`. -/
theorem decode_webhook_body_algorithm_error_unwrapped :
    decode_webhook_body algFailImpl [] [] "m_1" =
      Except.error ConnectorError.ParsingFailed ∧
    ConnectorError.ParsingFailed ≠ ConnectorError.WebhookBodyDecodingFailed :=
  ⟨rfl, fun h => ConnectorError.noConfusion h⟩

/-- C3 (amended): a failure of the message-extraction, secret-retrieval, or
decode step surfaces as `WebhookBodyDecodingFailed`; a failure of the
algorithm-selection step alone is propagated unchanged, with whatever kind
the implementation raised. -/
theorem decode_webhook_body_error_kinds (impl : IncomingWebhookImpl)
    (headers : Headers) (body : Bytes) (merchant_id : String)
    (e : ConnectorError)
    (h : decode_webhook_body impl headers body merchant_id = Except.error e) :
    e = ConnectorError.WebhookBodyDecodingFailed ∨
      impl.get_webhook_body_decoding_algorithm headers body =
        Except.error e := by
  unfold decode_webhook_body at h
  cases halg : impl.get_webhook_body_decoding_algorithm headers body with
  | error e0 =>
    rw [halg] at h
    simp at h
    right
    rw [h]
  | ok alg =>
    rw [halg] at h
    left
    cases hmsg : impl.get_webhook_body_decoding_message headers body with
    | error e1 =>
      rw [hmsg] at h
      simp [change_context] at h
      exact h.symm
    | ok message =>
      rw [hmsg] at h
      cases hsec : impl.get_webhook_body_decoding_merchant_secret merchant_id with
      | error e2 =>
        rw [hsec] at h
        simp [change_context] at h
        exact h.symm
      | ok secret =>
        rw [hsec] at h
        simp [change_context] at h
        cases hdec : alg.decode_message secret message with
        | error e3 =>
          rw [hdec] at h
          simp at h
          exact h.symm
        | ok decoded =>
          rw [hdec] at h
          simp at h

/-- Witness for the amended error-kind theorem: a failing message-extraction
step yields `WebhookBodyDecodingFailed`. -/
theorem decode_webhook_body_error_kinds_witness :
    ConnectorError.WebhookBodyDecodingFailed =
      ConnectorError.WebhookBodyDecodingFailed ∨
    msgFailImpl.get_webhook_body_decoding_algorithm [] [] =
      Except.error ConnectorError.WebhookBodyDecodingFailed :=
  decode_webhook_body_error_kinds msgFailImpl [] [] "m_1"
    ConnectorError.WebhookBodyDecodingFailed rfl

end Hyperswitch
